import Mathlib

/-!
Shallow embedding of the Movies-API request handlers (src/routes/v1.py).

Dates are modelled as integers (day numbers); a datetime is a day number
together with the seconds elapsed within that day, so that Python's
`datetime + timedelta(days=n)` is addition on the day component and
`.date()` is projection to the day component.  Money is modelled as ℚ.
The persistent store is an explicit record of lists; the fallibility of
the external storage collaborator (§6 of the design) is an explicit
boolean oracle passed to each handler that writes.
-/

namespace MoviesAPI

/-- Calendar date, as a day number. -/
abbrev Date := Int

/-- A naive UTC datetime: day number plus seconds within the day
(models Python `datetime.utcnow()`). -/
structure DateTime where
  day : Int
  secondsOfDay : Nat
deriving DecidableEq, Repr

/-- Python `datetime.date()`. -/
def DateTime.date (dt : DateTime) : Date := dt.day

/-- Python `datetime + timedelta(days = n)`: whole-day shifts leave the
time of day unchanged. -/
def DateTime.addDays (dt : DateTime) (n : Int) : DateTime :=
  { dt with day := dt.day + n }

/-- Role enum from `models/user.py` (values "customer", "admin"). -/
inductive Role
  | customer
  | admin
deriving DecidableEq, Repr

/-- Authenticated user (the fields the v1 handlers read). -/
structure User where
  id : Int
  role : Role
deriving DecidableEq, Repr

/-- OrderType enum from `models/order.py`. -/
inductive OrderType
  | rental
  | purchase
deriving DecidableEq, Repr

/-- Inventory item (`models/movie.py`), with `images` already in its
serialized scalar form. -/
structure Movie where
  id : Int
  title : String
  stock : Nat
  rental_price : Rat
  sale_price : Rat
  availability : Bool
  images : String
deriving DecidableEq, Repr

/-- An order row.  `expected_return_date` is nullable: it is only given a
value for rentals. -/
structure Order where
  id : Int
  movie_id : Int
  user_id : Int
  order_type : OrderType
  order_datetime : DateTime
  price_paid : Rat
  expected_return_date : Option Date
  returned_date : Option Date
  delay_penalty_paid : Rat
deriving DecidableEq, Repr

/-- InteractionType enum from `models/interaction.py`. -/
inductive InteractionType
  | like
deriving DecidableEq, Repr

/-- An interaction row. -/
structure Interaction where
  user_id : Int
  movie_id : Int
  interaction_type : InteractionType
  interaction_datetime : DateTime
deriving DecidableEq, Repr

/-- The HTTP-level outcomes the v1 handlers produce.  `badRequest` is
HTTP 400 (Invalid), `notFound` 404, `internalError` 500, `forbidden` the
authorization failure raised by `validate_admin`, and `unhandled` an
exception that escapes the handler (e.g. Python `TypeError`). -/
inductive ApiError
  | badRequest
  | notFound
  | forbidden
  | internalError
  | unhandled
deriving DecidableEq, Repr

/-- The external persistent store. -/
structure DB where
  users : List User
  movies : List Movie
  orders : List Order
deriving DecidableEq, Repr

/-- Lookup `db_get_movie`: first movie with the given id. -/
def db_get_movie (db : DB) (movie_id : Int) : Option Movie :=
  db.movies.find? (fun m => m.id == movie_id)

/-- Lookup `db_get_order`: first order with the given id. -/
def db_get_order (db : DB) (order_id : Int) : Option Order :=
  db.orders.find? (fun o => o.id == order_id)

/-- Lookup `db_get_user_by_id`: first user with the given id. -/
def db_get_user_by_id (db : DB) (user_id : Int) : Option User :=
  db.users.find? (fun u => u.id == user_id)

/-- The value written by a single-field movie update. -/
inductive FieldValue
  | str (s : String)
  | boolVal (b : Bool)
  | natVal (n : Nat)
  | ratVal (q : Rat)
deriving DecidableEq, Repr

/-- Modelled from the spec: `models/movie.py` is not under src/; this is
the Movie entity's declared attribute set, the names the v1 handlers and
the spec's data model (§3) use for its fields. -/
def movieFields : List String :=
  ["id", "title", "stock", "rental_price", "sale_price", "availability", "images"]

/-- Python `hasattr(movie, field_name)` for a Movie instance: membership
in the declared attribute set. -/
def movieHasAttr (field_name : String) : Bool :=
  movieFields.contains field_name

/-- Apply a single-field change to a movie (the record-level effect of
`db_update_movie`); an unknown field/value combination changes nothing. -/
def Movie.setField (m : Movie) (field_name : String) (value : FieldValue) : Movie :=
  match field_name, value with
  | "title", .str s => { m with title := s }
  | "images", .str s => { m with images := s }
  | "availability", .boolVal b => { m with availability := b }
  | "stock", .natVal n => { m with stock := n }
  | "rental_price", .ratVal q => { m with rental_price := q }
  | "sale_price", .ratVal q => { m with sale_price := q }
  | _, _ => m

/-- Modelled from the spec: `db_update_movie` (utils/db_functions.py, not
under src/) applies the single-field change to the stored row and returns
the updated movie (§4.2, §6 CatalogStore.updateField). -/
def db_update_movie (db : DB) (movie : Movie) (field_name : String) (value : FieldValue) :
    DB × Movie :=
  let m' := movie.setField field_name value
  ({ db with movies := db.movies.map (fun x => if x.id == movie.id then m' else x) }, m')

/-- A movie is referenced by an existing order. -/
def movie_referenced (db : DB) (movie_id : Int) : Bool :=
  db.orders.any (fun o => o.movie_id == movie_id)

/-- Modelled from the spec: `db_delete_movie` (utils/db_functions.py, not
under src/) removes the row, but raises a referential-conflict error when
the movie is referenced by existing orders (§6 CatalogStore delete
"surfacing a distinguishable referential conflict condition"). -/
def db_delete_movie (db : DB) (movie_id : Int) : Option DB :=
  if movie_referenced db movie_id then none
  else some { db with movies := db.movies.filter (fun m => !(m.id == movie_id)) }

/-- Python `validate_admin(user, raise_exceptions=False)`: true iff the
principal exists and is an admin. -/
def is_admin (user : Option User) : Bool :=
  match user with
  | some u => u.role == Role.admin
  | none => false

/-- Case-insensitive-free substring test used to model SQL `LIKE
'%title%'` filtering. -/
def strContainsSub (s t : String) : Bool :=
  (List.range (s.length + 1)).any (fun i => t.isPrefixOf (s.drop i))

/-- Modelled from the spec: `db_get_movies` (utils/db_functions.py, not
under src/) lists movies filtered by the optional title substring and the
optional availability flag, then pages with offset/limit (§4.2
listMovies).  Sorting only permutes the set of returned rows and is
omitted from the model. -/
def db_get_movies (db : DB) (_sort : String) (_ord : String) (limit : Nat) (offset : Nat)
    (title : Option String) (availability : Option Bool) : List Movie :=
  let l : List Movie := db.movies
  let l : List Movie := match title with
    | some t => l.filter (fun m => strContainsSub m.title t)
    | none => l
  let l : List Movie := match availability with
    | some a => l.filter (fun m => m.availability == a)
    | none => l
  (l.drop offset).take limit

/-- Events observably issued against the store, used to state ordering
properties of a handler's interaction with it. -/
inductive DbEvent
  | getUserById (id : Int)
  | updateUser (id : Int)
deriving DecidableEq, Repr

/-- Enum coercion `Role(value)` from an untrusted string. -/
def parseRole (value : String) : Option Role :=
  if value = "customer" then some Role.customer
  else if value = "admin" then some Role.admin
  else none

/-- Handler `patch_user` (PATCH /users/\x7buser_id\x7d/role).  `validate_admin`
(utils/security.py, not under src/) is modelled from the spec: it raises
`Forbidden` for a non-admin principal before anything else happens (§4.1).
The handler's reads and writes of the user store are returned as an event
trace, in order. -/
def patch_user (db : DB) (user_id : Int) (value : String) (user : User) :
    List DbEvent × Except ApiError User :=
  if user.role ≠ Role.admin then ([], .error .forbidden)
  else
    match db_get_user_by_id db user_id with
    | none => ([.getUserById user_id], .error .notFound)
    | some target =>
      match parseRole value with
      | none => ([.getUserById user_id], .error .badRequest)
      | some role =>
        if target.role ≠ role then
          ([.getUserById user_id, .updateUser user_id], .ok { target with role := role })
        else
          ([.getUserById user_id], .ok target)

/-- Handler `get_movies` (GET /movies).  The principal is optional
(`check_optional_jwt_token`); non-admins have the availability filter
forced to `true`. -/
def get_movies (db : DB) (sort : String) (ord : String) (limit : Nat) (offset : Nat)
    (title : Option String) (availability : Option Bool) (user : Option User) :
    Except ApiError (List Movie) :=
  let availability := if !is_admin user then some true else availability
  let movies := db_get_movies db sort ord limit offset title availability
  if movies.isEmpty then .error .notFound else .ok movies

/-- Handler `patch_movie` (PATCH /movies/\x7bmovie_id\x7d): admin-only
single-field update, rejecting any field name the Movie does not have
(the `hasattr` whitelist) with 400 before touching the store. -/
def patch_movie (db : DB) (movie_id : Int) (field_name : String) (value : FieldValue)
    (user : User) : DB × Except ApiError Movie :=
  if user.role ≠ Role.admin then (db, .error .forbidden)
  else
    match db_get_movie db movie_id with
    | none => (db, .error .notFound)
    | some movie =>
      if !movieHasAttr field_name then (db, .error .badRequest)
      else
        let (db', movie') := db_update_movie db movie field_name value
        (db', .ok movie')

/-- The fallback message `delete_movie` returns when the hard delete hit a
referential conflict. -/
def soft_disable_message (movie_id : Int) : String :=
  "Could not delete movie " ++ toString movie_id ++
    " because it is referenced by other resources. The movie was set to unavailable, but was not deleted."

/-- Handler `delete_movie` (DELETE /movies/\x7bmovie_id\x7d): admin-only hard
delete; on a referential-conflict failure it soft-disables the movie
instead and still reports success, with a distinguishing message. -/
def delete_movie (db : DB) (movie_id : Int) (user : User) :
    DB × Except ApiError String :=
  if user.role ≠ Role.admin then (db, .error .forbidden)
  else
    match db_get_movie db movie_id with
    | none => (db, .error .notFound)
    | some movie =>
      match db_delete_movie db movie_id with
      | some db' => (db', .ok "Deleted successfully.")
      | none =>
        let (db', _) := db_update_movie db movie "availability" (.boolVal false)
        (db', .ok (soft_disable_message movie_id))

/-- Handler `post_order` (POST /orders).  `days_to_return` is the configured
`DAYS_TO_RETURN_MOVIES` constant (utils/const.py); `insert_ok` is the
storage collaborator's verdict on the `db_insert_order` write. -/
def post_order (db : DB) (insert_ok : Bool) (now : DateTime) (days_to_return : Int)
    (order : Order) (user : User) : Except ApiError Order :=
  let order := { order with order_datetime := now }
  match db_get_movie db order.movie_id with
  | none => .error .notFound
  | some movie =>
    let order := { order with user_id := user.id }
    let order :=
      match order.order_type with
      | .rental =>
        { order with
          price_paid := movie.rental_price
          expected_return_date := some ((order.order_datetime.addDays days_to_return).date) }
      | .purchase =>
        { order with price_paid := movie.sale_price }
    if insert_ok then .ok order else .error .internalError

/-- Python `round(x, 2)` on the exact rational value: round to the
nearest hundredth. -/
def round2 (q : Rat) : Rat :=
  (round (q * 100) : Int) / 100

/-- Handler `patch_order` (PATCH /orders/\x7border_id\x7d): record a return.
`penalty_rate` is the configured `DELAY_PENALTY_PERCENTAGE_PER_DAY`
constant; `update_ok` is the storage collaborator's verdict on the
`db_update_order` partial write.  When the stored order has no
`expected_return_date` (a purchase), the Python comparison
`returned_date > None` raises a `TypeError` that no handler code catches:
modelled as the `unhandled` outcome. -/
def patch_order (db : DB) (update_ok : Bool) (penalty_rate : Rat)
    (order_id : Int) (returned_date : Date) (_user : User) : Except ApiError Order :=
  match db_get_order db order_id with
  | none => .error .notFound
  | some order =>
    let order := { order with returned_date := some returned_date }
    match order.expected_return_date with
    | none => .error .unhandled
    | some expected =>
      let order :=
        if returned_date > expected then
          let delayed_days : Int := returned_date - expected
          { order with
            delay_penalty_paid := round2 (order.price_paid * penalty_rate * delayed_days) }
        else order
      if update_ok then .ok order else .error .internalError

/-- Handler `post_interaction` (POST /movies/\x7bmovie_id\x7d/interaction):
records a typed interaction stamped with the current UTC time;
`insert_ok` is the storage collaborator's verdict on the
`db_insert_interaction` write, whose failure the handler maps to 404. -/
def post_interaction (insert_ok : Bool) (now : DateTime) (movie_id : Int)
    (type : InteractionType) (user : User) : Except ApiError Interaction :=
  let interaction : Interaction :=
    { user_id := user.id
      movie_id := movie_id
      interaction_type := type
      interaction_datetime := now }
  if insert_ok then .ok interaction else .error .notFound

end MoviesAPI

deriving instance DecidableEq for Except

namespace MoviesAPI

/-- Concrete available movie used to exercise the handlers. -/
def mW : Movie :=
  { id := 1, title := "A New Hope", stock := 3, rental_price := 10, sale_price := 20,
    availability := true, images := "[]" }

/-- Concrete unavailable movie. -/
def mHidden : Movie :=
  { id := 2, title := "Hidden Gem", stock := 1, rental_price := 4, sale_price := 9,
    availability := false, images := "[]" }

/-- Concrete admin principal. -/
def uAdmin : User := { id := 1, role := .admin }

/-- Concrete customer principal. -/
def uCust : User := { id := 7, role := .customer }

/-- Concrete stored rental order (due on day 0, penalty not yet set). -/
def oW : Order :=
  { id := 1, movie_id := 1, user_id := 7, order_type := .rental, order_datetime := ⟨0, 0⟩,
    price_paid := 10, expected_return_date := some 0, returned_date := none,
    delay_penalty_paid := 0 }

/-- Concrete stored purchase order (no expected return date). -/
def oPurchaseW : Order :=
  { id := 2, movie_id := 1, user_id := 7, order_type := .purchase, order_datetime := ⟨0, 0⟩,
    price_paid := 20, expected_return_date := none, returned_date := none,
    delay_penalty_paid := 0 }

/-- Concrete store state. -/
def dbW : DB := { users := [uAdmin, uCust], movies := [mW, mHidden], orders := [oW, oPurchaseW] }

/-- Client-supplied rental draft. -/
def draftRentalW : Order :=
  { id := 0, movie_id := 1, user_id := 42, order_type := .rental, order_datetime := ⟨0, 0⟩,
    price_paid := 0, expected_return_date := none, returned_date := none,
    delay_penalty_paid := 0 }

/-- Client-supplied rental draft with tampered client-controlled fields. -/
def draftRentalTamperedW : Order :=
  { id := 0, movie_id := 1, user_id := 99, order_type := .rental, order_datetime := ⟨55, 1⟩,
    price_paid := 999, expected_return_date := some 7, returned_date := none,
    delay_penalty_paid := 0 }

/-- Client-supplied purchase draft. -/
def draftPurchaseW : Order :=
  { id := 0, movie_id := 1, user_id := 42, order_type := .purchase, order_datetime := ⟨0, 0⟩,
    price_paid := 0, expected_return_date := none, returned_date := none,
    delay_penalty_paid := 0 }

/-- Client-supplied purchase draft that smuggles in an expected return
date. -/
def draftPurchaseExpW : Order :=
  { id := 0, movie_id := 1, user_id := 42, order_type := .purchase, order_datetime := ⟨0, 0⟩,
    price_paid := 0, expected_return_date := some 42, returned_date := none,
    delay_penalty_paid := 0 }

/-- Helper: updating (by id) the movie that a `find?` by id returns makes
the same `find?` return the updated movie. -/
theorem find?_map_update (movies : List Movie) (mid : Int) (movie m' : Movie)
    (h : movies.find? (fun x => x.id == mid) = some movie)
    (hid : m'.id = movie.id) :
    (movies.map (fun x => if x.id == movie.id then m' else x)).find? (fun x => x.id == mid)
      = some m' := by
  have hmid : (movie.id == mid) = true := by
    have := List.find?_some h
    simpa using this
  induction movies with
  | nil => simp at h
  | cons y ys ih =>
    rw [List.map_cons]
    by_cases hy : (y.id == mid) = true
    · rw [List.find?_cons_of_pos (p := fun x : Movie => x.id == mid) ys hy] at h
      injection h with h'
      subst h'
      rw [if_pos (by simp)]
      exact List.find?_cons_of_pos (p := fun x : Movie => x.id == mid) _
        (by show (m'.id == mid) = true; rw [hid]; exact hmid)
    · rw [List.find?_cons_of_neg (p := fun x : Movie => x.id == mid) ys (by simpa using hy)] at h
      have hy' : ¬ (y.id == movie.id) = true := by
        simp only [beq_iff_eq] at hy hmid ⊢
        rw [hmid]
        exact hy
      rw [if_neg hy',
        List.find?_cons_of_neg (p := fun x : Movie => x.id == mid) _ (by simpa using hy)]
      exact ih h

/-- C1: for an existing movie, `post_order` (createOrder) with a rental
draft sets `price_paid` to the movie's rental price and
`expected_return_date` to the creation timestamp's date plus the
configured return window; with a purchase draft it sets `price_paid` to
the movie's sale price and sets no expected return date (the draft's
value is left untouched). -/
theorem post_order_pricing (db : DB) (now : DateTime) (w : Int) (draft : Order) (user : User)
    (movie : Movie) (hm : db_get_movie db draft.movie_id = some movie) :
    post_order db true now w draft user =
      .ok (match draft.order_type with
        | .rental =>
          { draft with
            order_datetime := now
            user_id := user.id
            price_paid := movie.rental_price
            expected_return_date := some (now.date + w) }
        | .purchase =>
          { draft with
            order_datetime := now
            user_id := user.id
            price_paid := movie.sale_price }) := by
  rcases draft with ⟨i, mid, uid, otype, odt, pp, erd, rd, dpp⟩
  dsimp only at hm ⊢
  unfold post_order
  dsimp only
  rw [hm]
  cases otype <;> rfl

/-- Witness for C1, on the concrete store: a rental draft gets price 10
(the rental price) and due date 115 = day 100 plus a 15-day window; a
purchase draft gets price 20 (the sale price) and its
`expected_return_date` is not set. -/
theorem post_order_pricing_witness :
    post_order dbW true ⟨100, 5⟩ 15 draftRentalW uCust =
      .ok { draftRentalW with
            order_datetime := ⟨100, 5⟩
            user_id := 7
            price_paid := 10
            expected_return_date := some 115 }
    ∧ post_order dbW true ⟨100, 5⟩ 15 draftPurchaseW uCust =
      .ok { draftPurchaseW with
            order_datetime := ⟨100, 5⟩
            user_id := 7
            price_paid := 20 } := by
  constructor
  · exact (post_order_pricing dbW ⟨100, 5⟩ 15 draftRentalW uCust mW rfl).trans (by decide)
  · exact (post_order_pricing dbW ⟨100, 5⟩ 15 draftPurchaseW uCust mW rfl).trans (by decide)

/-- C2: for a stored rental order with an expected return date and a
still-zero penalty, `patch_order` (returnOrder) sets the returned date
and sets `delay_penalty_paid = round2 (price_paid * rate * delayed_days)`
exactly when the return is strictly after the due date (so an on-time
return keeps penalty 0), with `delayed_days` the whole-day difference. -/
theorem patch_order_penalty (db : DB) (rate : Rat) (order_id : Int) (ret expected : Date)
    (user : User) (order : Order)
    (ho : db_get_order db order_id = some order)
    (he : order.expected_return_date = some expected)
    (hz : order.delay_penalty_paid = 0) :
    patch_order db true rate order_id ret user =
      .ok { order with
            returned_date := some ret
            delay_penalty_paid :=
              if ret > expected then round2 (order.price_paid * rate * ((ret - expected : Int) : Rat))
              else 0 } := by
  rcases order with ⟨i, mid, uid, otype, odt, pp, erd, rd, dpp⟩
  dsimp only at he hz ⊢
  subst he; subst hz
  unfold patch_order
  rw [ho]
  dsimp only
  by_cases h : ret > expected
  · rw [if_pos h, if_pos h]; rfl
  · rw [if_neg h, if_neg h]; rfl

/-- Witness for C2: on the concrete store, returning the rental with
price 10.00, rate 0.1, three days late (due day 0, returned day 3) pays
penalty 3.00, and returning exactly on the due date pays 0. -/
theorem patch_order_penalty_witness :
    patch_order dbW true (1/10) 1 3 uCust =
      .ok { oW with returned_date := some 3, delay_penalty_paid := 3 }
    ∧ patch_order dbW true (1/10) 1 0 uCust =
      .ok { oW with returned_date := some 0, delay_penalty_paid := 0 } := by
  constructor
  · have h := patch_order_penalty dbW (1/10) 1 3 0 uCust oW rfl rfl rfl
    rw [h]
    norm_num [oW, round2]
  · have h := patch_order_penalty dbW (1/10) 1 0 0 uCust oW rfl rfl rfl
    rw [h]
    norm_num [oW]

/-- C3: `patch_movie` (updateMovieField) by an admin on an existing
movie rejects every field name outside the Movie's declared attribute
set with 400 Invalid, and leaves the store unchanged (no update is
performed). -/
theorem patch_movie_rejects_unknown_field (db : DB) (movie_id : Int) (field_name : String)
    (value : FieldValue) (user : User) (movie : Movie)
    (hu : user.role = Role.admin)
    (hm : db_get_movie db movie_id = some movie)
    (hf : field_name ∉ movieFields) :
    patch_movie db movie_id field_name value user = (db, .error .badRequest) := by
  have hattr : movieHasAttr field_name = false := by
    simpa [movieHasAttr] using hf
  simp [patch_movie, hu, hm, hattr]

/-- Witness for C3: an admin's update of the unknown field name
"director" on the stored movie is rejected with 400 and the store is
returned unchanged. -/
theorem patch_movie_rejects_unknown_field_witness :
    patch_movie dbW 1 "director" (.str "G. Lucas") uAdmin = (dbW, .error .badRequest) :=
  patch_movie_rejects_unknown_field dbW 1 "director" (.str "G. Lucas") uAdmin mW rfl rfl
    (by decide)

/-- C4: for every non-admin principal (including none) and every
requested availability filter, any movie returned by `get_movies`
(listMovies) has `availability = true`: the effective filter is forced to
`true`. -/
theorem get_movies_nonadmin_only_available (db : DB) (sort ord : String) (limit offset : Nat)
    (title : Option String) (availability : Option Bool) (user : Option User) (ms : List Movie)
    (m : Movie)
    (hu : is_admin user = false)
    (hms : get_movies db sort ord limit offset title availability user = .ok ms)
    (hm : m ∈ ms) : m.availability = true := by
  unfold get_movies db_get_movies at hms
  rw [hu] at hms
  simp only [Bool.not_false, if_true] at hms
  split at hms
  · exact absurd hms (by simp)
  · injection hms with hms
    subst hms
    have h1 := List.take_subset _ _ hm
    have h2 := List.drop_subset _ _ h1
    rw [List.mem_filter] at h2
    simpa using h2.2

/-- Witness for C4: a customer who explicitly requests
`availability = false` still gets only the available movie back. -/
theorem get_movies_nonadmin_only_available_witness :
    get_movies dbW "title" "asc" 10 0 none (some false) (some uCust) = .ok [mW]
    ∧ mW.availability = true :=
  ⟨rfl,
    get_movies_nonadmin_only_available dbW "title" "asc" 10 0 none (some false) (some uCust)
      [mW] mW rfl rfl (by simp)⟩

/-- C5: `delete_movie` (deleteMovie) by an admin on a movie referenced
by an existing order never removes the movie: the hard delete hits the
referential conflict, the movie's availability is set to false, the movie
is still found in the store afterwards, and the reported success message
is the soft-disable message, which differs from the real-deletion
message. -/
theorem delete_movie_referenced_soft_disables (db : DB) (movie_id : Int) (user : User)
    (movie : Movie)
    (hu : user.role = Role.admin)
    (hm : db_get_movie db movie_id = some movie)
    (href : movie_referenced db movie_id = true) :
    delete_movie db movie_id user =
      ({ db with movies := db.movies.map (fun x => if x.id == movie.id then { movie with availability := false } else x) },
       .ok (soft_disable_message movie_id))
    ∧ db_get_movie
        { db with movies := db.movies.map (fun x => if x.id == movie.id then { movie with availability := false } else x) }
        movie_id = some { movie with availability := false }
    ∧ soft_disable_message movie_id ≠ "Deleted successfully." := by
  refine ⟨?_, ?_, ?_⟩
  · unfold delete_movie
    rw [hu, if_neg (fun hcon => hcon rfl), hm]
    unfold db_delete_movie
    rw [href]
    rfl
  · have hm' : db.movies.find? (fun x => x.id == movie_id) = some movie := hm
    exact find?_map_update db.movies movie_id movie _ hm' rfl
  · intro hcontra
    have h2 := congrArg String.data hcontra
    simp [soft_disable_message, String.data_append] at h2

/-- Witness for C5: deleting the stored movie (referenced by two orders)
as admin soft-disables it: it is still present with availability false,
and the message is the fallback message. -/
theorem delete_movie_referenced_soft_disables_witness :
    delete_movie dbW 1 uAdmin =
      ({ dbW with movies := dbW.movies.map (fun x => if x.id == mW.id then { mW with availability := false } else x) },
       .ok (soft_disable_message 1))
    ∧ db_get_movie
        { dbW with movies := dbW.movies.map (fun x => if x.id == mW.id then { mW with availability := false } else x) }
        1 = some { mW with availability := false }
    ∧ soft_disable_message 1 ≠ "Deleted successfully." :=
  delete_movie_referenced_soft_disables dbW 1 uAdmin mW rfl rfl rfl

/-- C6: `patch_user` (patchUserRole) invoked by an authenticated
non-admin principal fails with Forbidden and issues no store event at
all: in particular the target user is never read. -/
theorem patch_user_forbidden_before_read (db : DB) (user_id : Int) (value : String) (user : User)
    (hu : user.role ≠ Role.admin) :
    patch_user db user_id value user = ([], .error .forbidden) := by
  unfold patch_user
  rw [if_pos hu]

/-- Witness for C6: a customer changing user 5's role is rejected with
Forbidden and the event trace is empty. -/
theorem patch_user_forbidden_before_read_witness :
    patch_user dbW 5 "admin" uCust = ([], .error .forbidden) :=
  patch_user_forbidden_before_read dbW 5 "admin" uCust (by decide)

/-- C7: when the storage collaborator fails the Order write, both
`post_order` (createOrder insert) and `patch_order` (returnOrder partial
update) surface 500 Internal — a server error, distinct from the client
errors 400 and 404 — and return no order. -/
theorem order_storage_failure_internal (db1 db2 : DB) (now : DateTime) (w : Int) (rate : Rat)
    (draft : Order) (u1 u2 : User) (order_id : Int) (ret expected : Date)
    (movie : Movie) (order : Order)
    (hm : db_get_movie db1 draft.movie_id = some movie)
    (ho : db_get_order db2 order_id = some order)
    (he : order.expected_return_date = some expected) :
    post_order db1 false now w draft u1 = .error .internalError
    ∧ patch_order db2 false rate order_id ret u2 = .error .internalError
    ∧ ApiError.internalError ≠ ApiError.badRequest
    ∧ ApiError.internalError ≠ ApiError.notFound := by
  refine ⟨?_, ?_, by decide, by decide⟩
  · rcases draft with ⟨i, mid, uid, otype, odt, pp, erd, rd, dpp⟩
    dsimp only at hm
    unfold post_order
    dsimp only
    rw [hm]
    cases otype <;> rfl
  · rcases order with ⟨i, mid, uid, otype, odt, pp, erd, rd, dpp⟩
    dsimp only at he
    subst he
    unfold patch_order
    rw [ho]
    dsimp only
    by_cases h : ret > expected
    · rw [if_pos h]; rfl
    · rw [if_neg h]; rfl

/-- Witness for C7: with the storage oracle failing, creating an order
and returning the stored rental both yield 500 on the concrete store. -/
theorem order_storage_failure_internal_witness :
    post_order dbW false ⟨100, 5⟩ 15 draftRentalW uCust = .error .internalError
    ∧ patch_order dbW false (1/10) 1 3 uCust = .error .internalError
    ∧ ApiError.internalError ≠ ApiError.badRequest
    ∧ ApiError.internalError ≠ ApiError.notFound :=
  order_storage_failure_internal dbW dbW ⟨100, 5⟩ 15 (1/10) draftRentalW uCust uCust 1 3 0
    mW oW rfl rfl rfl

/-- C8: when the storage collaborator fails the Interaction insert,
`post_interaction` (recordInteraction) surfaces 404 NotFound, not a 500
Internal server error. -/
theorem post_interaction_write_failure_not_found (now : DateTime) (movie_id : Int)
    (type : InteractionType) (user : User) :
    post_interaction false now movie_id type user = .error .notFound
    ∧ ApiError.notFound ≠ ApiError.internalError :=
  ⟨rfl, by decide⟩

/-- C9: returning an existing purchase order (which has no expected
return date) is neither rejected with 400 Invalid nor a no-op: the
unconditional comparison of the returned date with the absent expected
date raises an unhandled error, so no order is produced. -/
theorem patch_order_purchase_unhandled (db : DB) (update_ok : Bool) (rate : Rat)
    (order_id : Int) (ret : Date) (user : User) (order : Order)
    (ho : db_get_order db order_id = some order)
    (hty : order.order_type = OrderType.purchase)
    (he : order.expected_return_date = none) :
    patch_order db update_ok rate order_id ret user = .error .unhandled
    ∧ ApiError.unhandled ≠ ApiError.badRequest
    ∧ ∀ o : Order, patch_order db update_ok rate order_id ret user ≠ .ok o := by
  have hmain : patch_order db update_ok rate order_id ret user = .error .unhandled := by
    rcases order with ⟨i, mid, uid, otype, odt, pp, erd, rd, dpp⟩
    dsimp only at he
    subst he
    unfold patch_order
    rw [ho]
  exact ⟨hmain, by decide, fun o hcon => by rw [hmain] at hcon; exact Except.noConfusion hcon⟩

/-- Witness for C9: returning the stored purchase order ends in the
unhandled-error outcome. -/
theorem patch_order_purchase_unhandled_witness :
    patch_order dbW true (1/10) 2 3 uCust = .error .unhandled
    ∧ ApiError.unhandled ≠ ApiError.badRequest
    ∧ ∀ o : Order, patch_order dbW true (1/10) 2 3 uCust ≠ .ok o :=
  patch_order_purchase_unhandled dbW true (1/10) 2 3 uCust oPurchaseW rfl rfl rfl

/-- Counterexample to C10 as stated: two purchase drafts that differ only
in the client-supplied `expected_return_date` produce different created
orders, so that field does influence the created order (it is retained
unchanged on the purchase branch). -/
theorem post_order_client_expected_date_influences :
    post_order dbW true ⟨100, 0⟩ 15 draftPurchaseExpW uCust ≠
      post_order dbW true ⟨100, 0⟩ 15 draftPurchaseW uCust := by
  decide

/-- C10 (amended): `post_order` (createOrder) overwrites the draft's
`user_id` with the principal's id and derives `order_datetime` and
`price_paid` from the server clock and the referenced movie — and, for
rental drafts, also `expected_return_date` — so client-supplied
`user_id`, `price_paid` and `order_datetime` never influence the created
order, and a client-supplied `expected_return_date` does not influence it
for rentals; on purchase drafts, however, the client-supplied
`expected_return_date` is retained unchanged. -/
theorem post_order_ignores_client_identity_fields (db : DB) (insert_ok : Bool) (now : DateTime)
    (w : Int) (o1 o2 : Order) (user : User)
    (hid : o1.id = o2.id)
    (hmv : o1.movie_id = o2.movie_id)
    (hty : o1.order_type = o2.order_type)
    (hrd : o1.returned_date = o2.returned_date)
    (hdp : o1.delay_penalty_paid = o2.delay_penalty_paid)
    (hexp : o1.order_type = OrderType.rental ∨ o1.expected_return_date = o2.expected_return_date) :
    post_order db insert_ok now w o1 user = post_order db insert_ok now w o2 user := by
  rcases o1 with ⟨i1, m1, uid1, t1, d1, p1, e1, r1, y1⟩
  rcases o2 with ⟨i2, m2, uid2, t2, d2, p2, e2, r2, y2⟩
  dsimp only at hid hmv hty hrd hdp hexp
  subst hid; subst hmv; subst hty; subst hrd; subst hdp
  unfold post_order
  dsimp only
  cases hg : db_get_movie db m1 with
  | none => rfl
  | some movie =>
    cases t1 with
    | rental => rfl
    | purchase =>
      rcases hexp with hexp | hexp
      · exact absurd hexp (by simp)
      · subst hexp; rfl

/-- Witness for the amended C10: two rental drafts that differ in the
client-supplied `user_id`, `order_datetime`, `price_paid` and
`expected_return_date` produce the same created order. -/
theorem post_order_ignores_client_identity_fields_witness :
    post_order dbW true ⟨100, 5⟩ 15 draftRentalW uCust =
      post_order dbW true ⟨100, 5⟩ 15 draftRentalTamperedW uCust :=
  post_order_ignores_client_identity_fields dbW true ⟨100, 5⟩ 15 draftRentalW
    draftRentalTamperedW uCust rfl rfl rfl rfl rfl (Or.inl rfl)

end MoviesAPI
